import Mathlib

/-!
# Verification of the swipeAssignment invoice pipeline

Shallow embedding of the repository's core logic:

* `src/server/app/services/excel_processor.py` — the native spreadsheet
  aggregator (`process_excel_with_ai_mapping` and its helpers `parse_float`,
  `parse_tax`, the grouping/merge loop and the final roll-up);
* `src/server/app/routers/ai_route.py` — the per-file orchestration loop of
  `process_invoice_with_ai` and the `/extract` endpoint `process_invoice`.

Modelling conventions:

* Python floats are modelled as exact rationals (`ℚ`); `round(x, 2)` and the
  `:,.2f` format specifier are modelled with round-half-to-even on `ℚ`.
* Spreadsheet cells are modelled post-`str()`/`fillna('')`: a row is a list of
  (column-header, cell-string) pairs, a missing cell reads as `""`.
* The two `re` patterns the aggregator uses,
  `(\d+(?:\.\d+)?)\s*%` , `(\d+(?:\.\d+)?)` and `(\d+(?:,\d+)*(?:\.\d+)?)(?=\s*\()`,
  are modelled by leftmost maximal-munch scanners. Maximal munch coincides
  with Python's backtracking here: whenever greedy matching of a subpattern
  fails the tail, every backtracked alternative resumes at a digit, while the
  tails require a `.`/`%`/`(`/whitespace, so no backtracked attempt succeeds.
* External calls (Azure Document Intelligence, Gemini) are oracles: their
  outcome (`Except`) is a parameter of the orchestration model.
-/

namespace Swipe

/-- Python `str(float)` repr and Python `int`/division artefacts aside, all
numeric state is `ℚ`. `roundHalfEven` models Python's banker's rounding on an
exact rational value. -/
def roundHalfEven (q : ℚ) : ℤ :=
  if q - ⌊q⌋ = (1 : ℚ) / 2 then (if ⌊q⌋ % 2 = 0 then ⌊q⌋ else ⌊q⌋ + 1)
  else round q

/-- Model of Python `round(x, 2)` on an exact rational. -/
def pyRound2 (q : ℚ) : ℚ := (roundHalfEven (q * 100) : ℚ) / 100

/-- Digit characters of a natural number, most significant first. -/
def natDigits (n : ℕ) : List Char := Nat.toDigits 10 n

/-- Value of a run of digit characters. -/
def digitsToNat (l : List Char) : ℕ :=
  l.foldl (fun a c => 10 * a + (c.toNat - '0'.toNat)) 0

/-- Thousands grouping of a digit list, as the `,` flag of Python's format
mini-language produces it. -/
def commaGroup (ds : List Char) : List Char :=
  let n := ds.length
  ((List.range n).zip ds).foldr
    (fun p acc =>
      if p.1 ≠ 0 ∧ (n - p.1) % 3 = 0 then ',' :: p.2 :: acc else p.2 :: acc)
    []

/-- Two-digit zero-padded rendering of `m < 100`. -/
def twoPad (m : ℕ) : List Char :=
  if m < 10 then '0' :: natDigits m else natDigits m

/-- Model of Python `f"{x:,.2f}"` for a nonnegative rational. -/
def formatComma2NN (q : ℚ) : String :=
  let c := (roundHalfEven (q * 100)).toNat
  String.mk (commaGroup (natDigits (c / 100))) ++ ("." ++ String.mk (twoPad (c % 100)))

/-- Model of Python `f"{x:,.2f}"`. -/
def formatComma2 (q : ℚ) : String :=
  if q < 0 then "-" ++ formatComma2NN (-q) else formatComma2NN q

/-- Fractional digits of `r / d` by long division, most significant first,
stopping at remainder zero (all values reaching this in the pipeline are
decimal fractions, so the fuel is never exhausted). -/
def fracDigitsAux (fuel : ℕ) (r d : ℕ) : List Char :=
  match fuel with
  | 0 => []
  | fuel' + 1 =>
    if r = 0 then []
    else
      let r10 := r * 10
      Char.ofNat ('0'.toNat + r10 / d) :: fracDigitsAux fuel' (r10 % d) d

/-- Model of Python `repr(float)` (as used by `f"{perc}%"`) for a nonnegative
decimal fraction: shortest decimal form, at least one fractional digit. -/
def reprFloatNN (q : ℚ) : String :=
  let n := q.num.toNat
  let ip := n / q.den
  let fds := fracDigitsAux 40 (n % q.den) q.den
  String.mk (natDigits ip) ++ ("." ++ (if fds = [] then "0" else String.mk fds))

/-- Model of Python `repr(float)` / f-string interpolation of a float. -/
def reprFloat (q : ℚ) : String :=
  if q < 0 then "-" ++ reprFloatNN (-q) else reprFloatNN q

/-- Model of Python `str(int)` for the nonnegative percentages the code
coerces with `int(perc)`. -/
def intRepr (q : ℚ) : String := String.mk (natDigits q.num.toNat)

/-- Python `needle in hay` on strings. -/
def strContains (hay needle : String) : Bool :=
  hay.toList.tails.any (fun t => needle.toList.isPrefixOf t)

/-- Python `str.strip()`: drop leading and trailing whitespace. -/
def strTrim (s : String) : String :=
  String.mk (((s.toList.dropWhile Char.isWhitespace).reverse.dropWhile
    Char.isWhitespace).reverse)

/-- Python `str.lower()` on the ASCII data of this repository. -/
def strLower (s : String) : String :=
  String.mk (s.toList.map Char.toLower)

/-- `re.sub(r'[^\d.]', '', s)`: keep only digits and dots. -/
def keepDigitsDot (s : String) : String :=
  String.mk (s.toList.filter (fun c => c.isDigit || c == '.'))

/-- Value of a string that `float()` accepts after the `[^\d.]` strip: digits
around at most one dot. -/
def floatVal (s : String) : ℚ :=
  let cs := s.toList
  let ip := cs.takeWhile (fun c => c != '.')
  let fp := (cs.dropWhile (fun c => c != '.')).drop 1
  (digitsToNat ip : ℚ) + (digitsToNat fp : ℚ) / (10 ^ fp.length : ℚ)

/-- `parse_float` of `excel_processor.py` (lines 44-54): strip every character
other than digits and the decimal point, convert, and fall back to `0.0` on an
empty or unparsable residue (`float()` succeeds exactly when the residue has
at most one dot and at least one digit). -/
def parse_float (v : String) : ℚ :=
  if v = "" then 0
  else
    let clean := keepDigitsDot v
    if clean = "" then 0
    else if clean.toList.count '.' ≤ 1 ∧ clean.toList.any Char.isDigit = true then
      floatVal clean
    else 0

/-- Tail test for the `\s*%` that follows the captured number in
`(\d+(?:\.\d+)?)\s*%`: maximal whitespace, then a percent sign. -/
def percTail (l : List Char) : Bool :=
  (l.dropWhile Char.isWhitespace).head? == some '%'

/-- Anchored match of `(\d+(?:\.\d+)?)\s*%` (the merge-step percentage
re-extraction, `excel_processor.py` line 159), returning the captured group.
Greedy/maximal munch; see the header note for why backtracking never finds
more. -/
def matchPercAt (cs : List Char) : Option (List Char) :=
  let d1 := cs.takeWhile Char.isDigit
  if d1 = [] then none
  else
    let rest1 := cs.drop d1.length
    match rest1 with
    | '.' :: r2 =>
      let d2 := r2.takeWhile Char.isDigit
      if d2 = [] then (if percTail rest1 then some d1 else none)
      else if percTail (r2.drop d2.length) then some (d1 ++ '.' :: d2)
      else none
    | _ => if percTail rest1 then some d1 else none

/-- `re.search` of `(\d+(?:\.\d+)?)\s*%`: leftmost position with a match. -/
def searchPerc : List Char → Option (List Char)
  | [] => none
  | c :: cs =>
    match matchPercAt (c :: cs) with
    | some g => some g
    | none => searchPerc cs

/-- `re.search(r'(\d+(?:\.\d+)?)', s)` (the percentage-column parse,
`excel_processor.py` line 65): first digit onward, greedy. -/
def searchNum : List Char → Option (List Char)
  | [] => none
  | c :: cs =>
    if c.isDigit then
      let d1 := (c :: cs).takeWhile Char.isDigit
      let rest := (c :: cs).drop d1.length
      some
        (match rest with
         | '.' :: r2 =>
           let d2 := r2.takeWhile Char.isDigit
           if d2 = [] then d1 else d1 ++ '.' :: d2
         | _ => d1)
    else searchNum cs

/-- Lookahead test for `(?=\s*\()`. -/
def parenTail (l : List Char) : Bool :=
  (l.dropWhile Char.isWhitespace).head? == some '('

/-- Greedy `(?:,\d+)*`, returning (consumed, rest); fuel is the list length. -/
def munchCommaGroups (fuel : ℕ) (cs : List Char) : List Char × List Char :=
  match fuel with
  | 0 => ([], cs)
  | fuel' + 1 =>
    match cs with
    | ',' :: r =>
      let d := r.takeWhile Char.isDigit
      if d = [] then ([], ',' :: r)
      else
        let g := munchCommaGroups fuel' (r.drop d.length)
        (',' :: d ++ g.1, g.2)
    | _ => ([], cs)

/-- Anchored match of `(\d+(?:,\d+)*(?:\.\d+)?)(?=\s*\()` (the roll-up tax
re-extraction, `excel_processor.py` line 189), returning the captured group. -/
def matchAmountAt (cs : List Char) : Option (List Char) :=
  let d1 := cs.takeWhile Char.isDigit
  if d1 = [] then none
  else
    let rest1 := cs.drop d1.length
    let cg := munchCommaGroups rest1.length rest1
    let fr : List Char × List Char :=
      match cg.2 with
      | '.' :: r =>
        let d2 := r.takeWhile Char.isDigit
        if d2 = [] then ([], '.' :: r) else ('.' :: d2, r.drop d2.length)
      | _ => ([], cg.2)
    if parenTail fr.2 then some (d1 ++ cg.1 ++ fr.1) else none

/-- `re.search` of `(\d+(?:,\d+)*(?:\.\d+)?)(?=\s*\()`. -/
def searchAmount : List Char → Option (List Char)
  | [] => none
  | c :: cs =>
    match matchAmountAt (c :: cs) with
    | some g => some g
    | none => searchAmount cs

/-- `parse_tax` of `excel_processor.py` (lines 57-75). Returns the absolute
tax amount and the formatted `"amount (perc%)"` string. A header flagged with
`%` makes the cell a percentage; otherwise the cell is an absolute amount and
the percentage is back-computed (0 when the subtotal is not positive), rounded
to 2 decimals and coerced to `int` when whole. -/
def parse_tax (tax_val : String) (unit_price qty : ℚ) (heading_name : String) :
    ℚ × String :=
  if tax_val = "" then (0, "0.00 (0%)")
  else
    let tax_str := strTrim tax_val
    if heading_name ≠ "" ∧ heading_name.toList.contains '%' = true then
      let perc : ℚ :=
        match searchNum tax_str.toList with
        | some g => floatVal (String.mk g)
        | none => 0
      let amount := (qty * unit_price) * (perc / 100)
      (amount, formatComma2 amount ++ (" (" ++ (reprFloat perc ++ "%)")))
    else
      let amount := parse_float tax_val
      let subtotal := qty * unit_price
      let perc : ℚ := if subtotal > 0 then pyRound2 ((amount / subtotal) * 100) else 0
      let percStr := if perc.den = 1 then intRepr perc else reprFloat perc
      (amount, formatComma2 amount ++ (" (" ++ (percStr ++ "%)")))

/-- A finalized line item (`Product` of `output_schema.py`, as the aggregator
fills it: all fields present). -/
structure Product where
  name : String
  quantity : ℚ
  unit_price : ℚ
  tax : String
  price_with_tax : ℚ
deriving DecidableEq, Repr

/-- The percentage the merge step re-extracts from an existing product's
formatted tax string (`excel_processor.py` lines 159-160). -/
def extractPercOfTax (s : String) : ℚ :=
  match searchPerc s.toList with
  | some g => floatVal (String.mk g)
  | none => 0

/-- The product-merge step for a repeated product name
(`excel_processor.py` lines 155-166): add the new quantity, re-extract the
stored percentage, recompute tax and price-with-tax from the merged base. -/
def mergeProduct (ep : Product) (p_qty : ℚ) : Product :=
  let q' := ep.quantity + p_qty
  let ep_perc := extractPercOfTax ep.tax
  let ep_tax_amount := (q' * ep.unit_price) * (ep_perc / 100)
  { ep with
    quantity := q'
    tax := formatComma2 ep_tax_amount ++ (" (" ++ (reprFloat ep_perc ++ "%)"))
    price_with_tax := q' * ep.unit_price + ep_tax_amount }

/-- A spreadsheet row after `pd.read_excel` + `fillna('')` + `str()`:
(column header, cell string) pairs. -/
abbrev Row := List (String × String)

/-- `row[c]` for a header `c` (headers are unique in a DataFrame; first match). -/
def rowVal (row : Row) (c : String) : String :=
  match row.find? (fun p => p.1 == c) with
  | some p => p.2
  | none => ""

/-- `ExcelHeaderMapping` of `output_schema.py`: the nine canonical fields,
each an optional exact column-header string. -/
structure ExcelHeaderMapping where
  customer_name : Option String
  phone_number : Option String
  invoice_date : Option String
  total_amount : Option String
  quantity : Option String
  unit_price : Option String
  product_name : Option String
  serial_number : Option String
  tax : Option String
deriving DecidableEq, Repr

/-- The guard `col and col in df.columns` the row loop applies to every mapped
column (a `None` or empty mapping value, or a header absent from the sheet,
counts as unmapped). -/
def resolveCol (headers : List String) (c? : Option String) : Option String :=
  match c? with
  | some c => if c != "" && headers.contains c then some c else none
  | none => none

/-- `str(row[col]).strip() if col and col in df.columns else ""`. -/
def cellOf (headers : List String) (row : Row) (c? : Option String) : String :=
  match resolveCol headers c? with
  | some c => strTrim (rowVal row c)
  | none => ""

/-- The phone fallback keywords (`excel_processor.py` line 100). -/
def phoneKeyword (c : String) : Bool :=
  ["phone", "mobile", "contact"].any (fun k => strContains (strLower c) k)

/-- The fallback scan for a phone column: first keyword-named header whose
cell in this row is nonblank (`excel_processor.py` lines 98-104; the `break`
sits inside the nonblank test, so blank keyword columns are passed over). -/
def phoneScan (headers : List String) (row : Row) : String :=
  match headers.find? (fun c => phoneKeyword c && strTrim (rowVal row c) != "") with
  | some c => strTrim (rowVal row c)
  | none => ""

/-- Trailing-`.0` strip and textual-`nan` blanking applied to the phone string
(`excel_processor.py` lines 106-109). -/
def normalizePhone (p : String) : String :=
  let p2 :=
    if (".0".toList).isSuffixOf p.toList then
      String.mk (p.toList.take (p.toList.length - 2))
    else p
  if strLower p2 == "nan" then "" else p2

/-- Phone resolution for one row (`excel_processor.py` lines 91-111): mapped
column if its value is nonblank, else the keyword scan, then normalization. -/
def resolvePhone (headers : List String) (row : Row) (c? : Option String) : String :=
  let p0 :=
    match resolveCol headers c? with
    | some c => if strTrim (rowVal row c) != "" then strTrim (rowVal row c) else ""
    | none => ""
  normalizePhone (if p0 = "" then phoneScan headers row else p0)

/-- A header matches the tax fallback when it contains `tax` (lowercased) or a
`%` character (`excel_processor.py` line 146). -/
def taxHeaderMatch (c : String) : Bool :=
  strContains (strLower c) "tax" || c.toList.contains '%'

/-- Tax-cell resolution (`excel_processor.py` lines 139-149): the mapped
column's raw cell string, else the first fallback header's cell; the second
component is `str(actual_tax_col)` handed to `parse_tax` (so `str(None)` when
nothing resolves). -/
def resolveTax (headers : List String) (row : Row) (c? : Option String) :
    String × String :=
  match resolveCol headers c? with
  | some c => (rowVal row c, c)
  | none =>
    match headers.find? taxHeaderMatch with
    | some c => (rowVal row c, c)
    | none => ("", match c? with | some c => c | none => "None")

/-- Everything the row loop reads from one row before mutating the grouping
state (`excel_processor.py` lines 81-151). -/
structure RowFields where
  r_cust : String
  r_date : String
  r_total : String
  r_serial : String
  r_phone : String
  p_name : String
  p_qty : ℚ
  p_unit : ℚ
  tax_str : String
  heading : String
deriving DecidableEq, Repr

/-- Field extraction for one row. -/
def extractFields (headers : List String) (m : ExcelHeaderMapping) (row : Row) :
    RowFields :=
  { r_cust := cellOf headers row m.customer_name
    r_date := cellOf headers row m.invoice_date
    r_total := cellOf headers row m.total_amount
    r_serial :=
      match resolveCol headers m.serial_number with
      | some c => strTrim (rowVal row c)
      | none => "Unknown Serial"
    r_phone := resolvePhone headers row m.phone_number
    p_name :=
      match resolveCol headers m.product_name with
      | some c => strTrim (rowVal row c)
      | none => "Unknown Product"
    p_qty :=
      match resolveCol headers m.quantity with
      | some c => parse_float (rowVal row c)
      | none => 0
    p_unit :=
      match resolveCol headers m.unit_price with
      | some c => parse_float (rowVal row c)
      | none => 0
    tax_str := (resolveTax headers row m.tax).1
    heading := (resolveTax headers row m.tax).2 }

/-- The row-exclusion test (`excel_processor.py` line 86). -/
def excludedF (f : RowFields) : Bool :=
  f.r_cust == "" || strLower f.r_cust == "unknown customer" ||
    f.r_date == "" || f.r_total == "" || f.r_total == "0.0"

/-- The exclusion test on a raw row. -/
def excludedRow (headers : List String) (m : ExcelHeaderMapping) (row : Row) : Bool :=
  excludedF (extractFields headers m row)

/-- An in-progress invoice (the dict built at `excel_processor.py`
lines 116-130; the totals are filled in the final roll-up). -/
structure RawInvoice where
  serial_number : String
  date : String
  customer_name : String
  phone_number : String
  products : List Product
deriving DecidableEq, Repr

/-- `(CustomerName, SerialNum, Phone)`. -/
abbrev GroupKey := String × String × String

/-- `raw_invoices`: an insertion-ordered dict, keys unique in every reachable
state. -/
abbrev AggState := List (GroupKey × RawInvoice)

/-- The group key of a row (`excel_processor.py` line 113). -/
def keyOf (f : RowFields) : GroupKey :=
  ((if f.r_cust == "" then "Unknown Customer" else f.r_cust), f.r_serial, f.r_phone)

/-- The invoice created on a group's first row (`excel_processor.py`
lines 116-130). -/
def freshInvoice (f : RowFields) : RawInvoice :=
  { serial_number := f.r_serial
    date := f.r_date
    customer_name := f.r_cust
    phone_number := f.r_phone
    products := [] }

/-- In-place update of the (unique) entry of an insertion-ordered dict. -/
def updateFirst (st : AggState) (key : GroupKey) (upd : RawInvoice → RawInvoice) :
    AggState :=
  match st with
  | [] => []
  | e :: rest =>
    if e.1 == key then (e.1, upd e.2) :: rest else e :: updateFirst rest key upd

/-- Product insertion/merge against the name-keyed products dict
(`excel_processor.py` lines 154-174): merge into the first (unique) entry with
this name, else append the freshly parsed product. -/
def stepProducts (ps : List Product) (p_name : String) (p_qty : ℚ)
    (newProd : Product) : List Product :=
  match ps with
  | [] => [newProd]
  | p :: rest =>
    if p.name == p_name then mergeProduct p p_qty :: rest
    else p :: stepProducts rest p_name p_qty newProd

/-- One iteration of the row loop on extracted fields
(`excel_processor.py` lines 79-174). -/
def stepFields (st : AggState) (f : RowFields) : AggState :=
  if excludedF f then st
  else
    let key := keyOf f
    let st1 :=
      if (st.find? (fun e => e.1 == key)).isSome then st
      else st ++ [(key, freshInvoice f)]
    let pr := parse_tax f.tax_str f.p_unit f.p_qty f.heading
    let newProd : Product :=
      { name := f.p_name
        quantity := f.p_qty
        unit_price := f.p_unit
        tax := pr.2
        price_with_tax := f.p_qty * f.p_unit + pr.1 }
    updateFirst st1 key
      (fun inv => { inv with products := stepProducts inv.products f.p_name f.p_qty newProd })

/-- One iteration of the row loop on a raw row. -/
def processRow (headers : List String) (m : ExcelHeaderMapping) (st : AggState)
    (row : Row) : AggState :=
  stepFields st (extractFields headers m row)

/-- A finalized invoice (`invoice_details` + `customer` + `products` as
emitted at `excel_processor.py` lines 195-202). -/
structure Invoice where
  serial_number : String
  total_quantity : ℚ
  total_tax_amount : ℚ
  total_amount : ℚ
  date : String
  customer_name : String
  phone_number : String
  total_purchase_amount : ℚ
  products : List Product
deriving DecidableEq, Repr

/-- The roll-up's per-product tax contribution (`excel_processor.py`
lines 187-191): the leading numeric token of the formatted tax string before
the parenthesis, re-parsed with `parse_float`; no match contributes nothing. -/
def taxOfProduct (p : Product) : ℚ :=
  match searchAmount p.tax.toList with
  | some g => parse_float (String.mk g)
  | none => 0

/-- The final roll-up of one invoice (`excel_processor.py` lines 179-202). -/
def finalizeInvoice (inv : RawInvoice) : Invoice :=
  let ps := inv.products
  { serial_number := inv.serial_number
    total_quantity := (ps.map (fun p => p.quantity)).sum
    total_tax_amount := pyRound2 ((ps.map taxOfProduct).sum)
    total_amount := pyRound2 ((ps.map (fun p => p.price_with_tax)).sum)
    date := inv.date
    customer_name := inv.customer_name
    phone_number := inv.phone_number
    total_purchase_amount := pyRound2 ((ps.map (fun p => p.price_with_tax)).sum)
    products := ps }

/-- `process_excel_with_ai_mapping` after the header-mapping call: fold the
row loop over the rows, then roll up every group in insertion order
(`excel_processor.py` lines 77-204). -/
def process_excel (headers : List String) (m : ExcelHeaderMapping)
    (rows : List Row) : List Invoice :=
  (rows.foldl (processRow headers m) []).map (fun e => finalizeInvoice e.2)

/-- A raised Python exception as the orchestrator inspects it: `str(e)` and
`str(getattr(e, 'code', ''))`. -/
structure PyError where
  msg : String
  code : String
deriving DecidableEq, Repr

/-- The fixed user-facing quota explanation (`ai_route.py` line 156). -/
def quotaMessage : String :=
  "429 RESOURCE_EXHAUSTED: You have exceeded your Gemini API free tier rate limit/quota. Please check your billing details or try again later."

/-- The per-file error-message rewrite (`ai_route.py` lines 154-156): quota or
rate-limit errors, detected by message content, become `quotaMessage`. -/
def rewriteError (e : PyError) : String :=
  if strContains e.msg "429 RESOURCE_EXHAUSTED" || strContains e.msg "Quota exceeded" ||
      strContains e.code "429" then
    quotaMessage
  else e.msg

/-- One element of the orchestrator's result list: an extracted invoice
record, or the stand-in of shape `{error, file}` (`ai_route.py` line 159). -/
inductive ResultEntry (α : Type) where
  | invoice (data : α)
  | errorEntry (error : String) (file : String)
deriving DecidableEq, Repr

/-- The system prompt of `prompts.py` (abridged: the claims never inspect its
text, only which suffix block the orchestrator appends to it). -/
def INVOICE_EXTRACTION_PROMPT : String :=
  "You are an expert data extraction and processing assistant for an automated accounting system."

/-- The enrichment block appended when Azure produced text
(`ai_route.py` lines 92-105; abridged, the extracted text embedded). -/
def enrichedBlock (txt : String) : String :=
  "<input_data> This is an image/PDF. The following text was extracted using azure document Intelligence API. " ++
    txt ++ " </input_data>"

/-- The generic placeholder block appended when no text is available
(`ai_route.py` lines 107-113). -/
def placeholderBlock : String :=
  "<input_data> [INSERT EXCEL/PDF/IMAGE TEXT OR FILE PAYLOAD HERE] </input_data>"

/-- The image/PDF branch of the per-file loop (`ai_route.py` lines 80-159)
for one file, with the two external calls as oracles: `extract` is the Azure
text-extraction outcome (`_extract_text_with_Azure_Intelligence` has no
handler of its own, so its exception propagates to the per-file `except`),
`generate` the structured-generation outcome on the assembled prompt. -/
def processImageFile (α : Type) (fileName : String) (fastMode : Bool)
    (extract : Except PyError String)
    (generate : String → Except PyError (List α)) : List (ResultEntry α) :=
  match (if fastMode then Except.ok "" else extract) with
  | .error e => [.errorEntry (rewriteError e) fileName]
  | .ok txt =>
    let prompt :=
      if txt ≠ "" then INVOICE_EXTRACTION_PROMPT ++ enrichedBlock txt
      else INVOICE_EXTRACTION_PROMPT ++ placeholderBlock
    match generate prompt with
    | .error e => [.errorEntry (rewriteError e) fileName]
    | .ok invs => invs.map .invoice

/-- The result-list contribution of one file of the batch, its processing
outcome abstracted as an oracle: extracted invoices extend the list, an
exception appends one rewritten `{error, file}` stand-in. -/
def fileEntries (α : Type) (f : String × Except PyError (List α)) :
    List (ResultEntry α) :=
  match f.2 with
  | .error e => [.errorEntry (rewriteError e) f.1]
  | .ok invs => invs.map .invoice

/-- The sequential batch loop of `process_invoice_with_ai`
(`ai_route.py` lines 59-163): files processed in order, per-file failures
recorded in place, the loop never aborted by one file. -/
def processFiles (α : Type) (files : List (String × Except PyError (List α))) :
    List (ResultEntry α) :=
  files.foldl (fun acc f => acc ++ fileEntries α f) []

/-- The `/extract` response envelope (`ai_route.py` line 383). -/
structure Envelope (α : Type) where
  message : String
  data : List (ResultEntry α)
  status_code : ℕ
deriving DecidableEq, Repr

/-- The `/extract` endpoint `process_invoice` (`ai_route.py` lines 181-386):
the batch result is always wrapped with `status_code` 200 (the 500 path is
reachable only from the batch wrapper itself — directory setup or file
saving — never from a per-file processing failure). -/
def process_invoice (α : Type) (files : List (String × Except PyError (List α))) :
    Envelope α :=
  { message := "Invoice processed successfully"
    data := processFiles α files
    status_code := 200 }

/-! ## Concrete scenarios used by the theorems -/

/-- Headers of the end-to-end spreadsheet scenario. -/
def scHeaders : List String :=
  ["Customer Name", "Serial No", "Phone", "Product", "Qty", "Unit Price",
   "Tax %", "Date", "Total"]

/-- A fully resolved header mapping for `scHeaders` (tax column header-flagged
with `%`). -/
def scMapping : ExcelHeaderMapping :=
  { customer_name := some "Customer Name"
    phone_number := some "Phone"
    invoice_date := some "Date"
    total_amount := some "Total"
    quantity := some "Qty"
    unit_price := some "Unit Price"
    product_name := some "Product"
    serial_number := some "Serial No"
    tax := some "Tax %" }

/-- The scenario row: Widget, qty 1, unit price 100, tax cell `18%`. -/
def scRow : Row :=
  [("Customer Name", "Alice"), ("Serial No", "S1"), ("Phone", "12345"),
   ("Product", "Widget"), ("Qty", "1"), ("Unit Price", "100"),
   ("Tax %", "18%"), ("Date", "2024-01-01"), ("Total", "236")]

/-- Same group and product as `scRow` but tax cell `10%` — a repeat occurrence
whose own tax cell differs from the first occurrence's. -/
def scRowTenPct : Row :=
  [("Customer Name", "Alice"), ("Serial No", "S1"), ("Phone", "12345"),
   ("Product", "Widget"), ("Qty", "1"), ("Unit Price", "100"),
   ("Tax %", "10%"), ("Date", "2024-01-01"), ("Total", "236")]

/-- A row whose total amount is zero but written `0.00`, not the literal
`0.0` the exclusion test compares against. -/
def scZeroTotalRow : Row :=
  [("Customer Name", "Alice"), ("Serial No", "S1"), ("Phone", "12345"),
   ("Product", "Widget"), ("Qty", "1"), ("Unit Price", "100"),
   ("Tax %", "18%"), ("Date", "2024-01-01"), ("Total", "0.00")]

/-- A placeholder-customer row, excluded by the row filter. -/
def scUnknownRow : Row :=
  [("Customer Name", "Unknown Customer"), ("Serial No", "S1"), ("Phone", "12345"),
   ("Product", "Widget"), ("Qty", "1"), ("Unit Price", "100"),
   ("Tax %", "18%"), ("Date", "2024-01-01"), ("Total", "236")]

/-- The invoice `process_excel scHeaders scMapping [scRow]` produces. -/
def scSingleInvoice : Invoice :=
  { serial_number := "S1"
    total_quantity := 1
    total_tax_amount := 18
    total_amount := 118
    date := "2024-01-01"
    customer_name := "Alice"
    phone_number := "12345"
    total_purchase_amount := 118
    products :=
      [{ name := "Widget", quantity := 1, unit_price := 100,
         tax := "18.00 (18.0%)", price_with_tax := 118 }] }

/-- Headers of the null-mapping fallback scenario: a column literally named
`Quantity` that the mapping leaves unresolved. -/
def fbHeaders : List String :=
  ["Customer Name", "Date", "Total", "Quantity", "Product"]

/-- Mapping for `fbHeaders` with `quantity` (and several others) null. -/
def fbMapping : ExcelHeaderMapping :=
  { customer_name := some "Customer Name"
    phone_number := none
    invoice_date := some "Date"
    total_amount := some "Total"
    quantity := none
    unit_price := none
    product_name := some "Product"
    serial_number := none
    tax := none }

/-- A row with quantity 5 in the unmapped `Quantity` column. -/
def fbRow : Row :=
  [("Customer Name", "Bob"), ("Date", "2024-02-02"), ("Total", "50"),
   ("Quantity", "5"), ("Product", "Gadget")]

/-- An existing merged product used by the frame-effect scenario. -/
def frProduct : Product :=
  { name := "Widget", quantity := 1, unit_price := 100,
    tax := "18.00 (18.0%)", price_with_tax := 118 }

/-- The invoice of the frame-effect scenario, already holding `frProduct`. -/
def frInvoice : RawInvoice :=
  { serial_number := "S1", date := "2024-01-01", customer_name := "Alice",
    phone_number := "12345", products := [frProduct] }

/-- A one-invoice aggregation state for the frame-effect scenario. -/
def frState : AggState := [(("Alice", "S1", "12345"), frInvoice)]

/-- The extracted fields of a repeat `Widget` row in the frame-effect
scenario. -/
def frFields : RowFields :=
  { r_cust := "Alice", r_date := "2024-01-01", r_total := "236",
    r_serial := "S1", r_phone := "12345", p_name := "Widget",
    p_qty := 1, p_unit := 100, tax_str := "18%", heading := "Tax %" }

/-- A transport error used by the error-path scenarios. -/
def scTransportError : PyError := { msg := "connection refused", code := "" }

/-- A quota error used by the error-path scenarios. -/
def scQuotaError : PyError := { msg := "Quota exceeded for quota metric", code := "" }

/-! ## Helper lemmas -/

theorem keepDigitsDot_idem (v : String) :
    keepDigitsDot (keepDigitsDot v) = keepDigitsDot v := by
  unfold keepDigitsDot
  simp [List.filter_filter]

theorem keepDigitsDot_example : keepDigitsDot "$5,095.24" = "5095.24" := by
  with_unfolding_all decide

theorem parse_float_strip (v : String) :
    parse_float v = parse_float (keepDigitsDot v) := by
  by_cases hv : v = ""
  · subst hv; rfl
  · by_cases hc : keepDigitsDot v = ""
    · simp [parse_float, if_neg hv, hc]
    · simp [parse_float, if_neg hv, if_neg hc, keepDigitsDot_idem]

theorem processRow_excluded (headers : List String) (m : ExcelHeaderMapping)
    (st : AggState) (row : Row) (h : excludedRow headers m row = true) :
    processRow headers m st row = st := by
  unfold processRow stepFields
  unfold excludedRow at h
  rw [if_pos h]

theorem foldl_fileEntries (α : Type) (l : List (String × Except PyError (List α)))
    (acc : List (ResultEntry α)) :
    l.foldl (fun a f => a ++ fileEntries α f) acc =
      acc ++ l.foldl (fun a f => a ++ fileEntries α f) [] := by
  induction l generalizing acc with
  | nil => simp
  | cons f rest ih =>
    rw [List.foldl_cons, List.foldl_cons, ih, List.nil_append,
      ih (fileEntries α f), List.append_assoc]

theorem updateFirst_eq_of_agree (st : AggState) (key : GroupKey) (inv : RawInvoice)
    (u u' : RawInvoice → RawInvoice)
    (hkey : st.find? (fun e => e.1 == key) = some (key, inv))
    (hu : u inv = u' inv) :
    updateFirst st key u = updateFirst st key u' := by
  induction st with
  | nil => rfl
  | cons e rest ih =>
    by_cases hc : (e.1 == key) = true
    · simp only [List.find?, hc] at hkey
      have he : e = (key, inv) := Option.some.inj hkey
      subst he
      simp [updateFirst, hc, hu]
    · have hc' : (e.1 == key) = false := by simpa using hc
      simp only [List.find?, hc'] at hkey
      simp [updateFirst, hc', ih hkey]

theorem stepProducts_congr (ps : List Product) (nm : String) (q : ℚ)
    (np np' : Product)
    (h : (ps.find? (fun p => p.name == nm)).isSome = true) :
    stepProducts ps nm q np = stepProducts ps nm q np' := by
  induction ps with
  | nil => simp [List.find?] at h
  | cons p rest ih =>
    by_cases hc : (p.name == nm) = true
    · simp [stepProducts, hc]
    · have hc' : (p.name == nm) = false := by simpa using hc
      simp only [List.find?, hc'] at h
      simp [stepProducts, hc', ih h]

/-! ## The claims -/

/-- C1 (corrected): on the two-row Widget scenario the aggregator emits one
invoice with one merged product of quantity 2, price-with-tax 236 and total
236 — but the tax string is `"36.00 (18.0%)"`, not `"36.00 (18%)"`: the
percentage branch of `parse_tax` and the merge step interpolate the Python
float `18.0`, never coercing a whole percentage to `int`. -/
theorem C1_amended :
    process_excel scHeaders scMapping [scRow, scRow] =
      [{ serial_number := "S1", total_quantity := 2, total_tax_amount := 36,
         total_amount := 236, date := "2024-01-01", customer_name := "Alice",
         phone_number := "12345", total_purchase_amount := 236,
         products := [{ name := "Widget", quantity := 2, unit_price := 100,
                        tax := "36.00 (18.0%)", price_with_tax := 236 }] }] := by
  with_unfolding_all rfl

/-- C1, counterexample to the claim as stated: the merged product's tax
string on the claimed scenario is `"36.00 (18.0%)"`, which differs from the
claimed `"36.00 (18%)"`. -/
theorem C1_counterexample :
    ((process_excel scHeaders scMapping [scRow, scRow]).map
        (fun i => i.products.map (fun p => p.tax))) = [["36.00 (18.0%)"]] ∧
      ("36.00 (18.0%)" : String) ≠ "36.00 (18%)" := by
  constructor
  · with_unfolding_all rfl
  · decide

/-- C2 (confirmed): a repeat occurrence of a product name merges by summing
quantities, recomputing the tax amount as
(merged quantity × unit price) × (re-extracted percentage / 100) from the
merged base, and recomputing price-with-tax from merged quantity × unit price
plus that tax — and recomputation is observably not summation: on a two-row
run whose second tax cell says 10%, the merged totals are (36, 236), while
the two rows aggregated separately give (18, 118) and (10, 110). -/
theorem C2_merge_recompute (ep : Product) (q : ℚ) :
    (mergeProduct ep q).quantity = ep.quantity + q ∧
    (mergeProduct ep q).price_with_tax =
      (ep.quantity + q) * ep.unit_price +
        ((ep.quantity + q) * ep.unit_price) * (extractPercOfTax ep.tax / 100) ∧
    (mergeProduct ep q).tax =
      formatComma2 (((ep.quantity + q) * ep.unit_price) *
          (extractPercOfTax ep.tax / 100)) ++
        (" (" ++ (reprFloat (extractPercOfTax ep.tax) ++ "%)")) ∧
    ((process_excel scHeaders scMapping [scRow, scRowTenPct]).map
        (fun i => (i.total_tax_amount, i.total_amount)) = [(36, 236)] ∧
      (process_excel scHeaders scMapping [scRow]).map
        (fun i => (i.total_tax_amount, i.total_amount)) = [(18, 118)] ∧
      (process_excel scHeaders scMapping [scRowTenPct]).map
        (fun i => (i.total_tax_amount, i.total_amount)) = [(10, 110)] ∧
      (36 : ℚ) ≠ 18 + 10 ∧ (236 : ℚ) ≠ 118 + 110) := by
  refine ⟨rfl, rfl, rfl, ?_, ?_, ?_, ?_, ?_⟩ <;> with_unfolding_all decide

/-- C3 (confirmed): every invoice the aggregator outputs has total_quantity
the sum of its products' quantities, total_amount the 2-decimal rounding of
the sum of their price-with-tax values, customer total_purchase_amount equal
to total_amount, and total_tax_amount the rounded sum of the absolute tax
amounts re-extracted from each product's formatted tax string (leading
numeric token before the parenthesis). -/
theorem C3_invoice_totals (headers : List String) (m : ExcelHeaderMapping)
    (rows : List Row) (inv : Invoice)
    (h : inv ∈ process_excel headers m rows) :
    inv.total_quantity = (inv.products.map (fun p => p.quantity)).sum ∧
    inv.total_amount = pyRound2 ((inv.products.map (fun p => p.price_with_tax)).sum) ∧
    inv.total_purchase_amount = inv.total_amount ∧
    inv.total_tax_amount = pyRound2 ((inv.products.map taxOfProduct).sum) := by
  unfold process_excel at h
  obtain ⟨e, _, rfl⟩ := List.mem_map.mp h
  exact ⟨rfl, rfl, rfl, rfl⟩

/-- C3, witnessed at the one-row Widget scenario. -/
theorem C3_witness :
    scSingleInvoice.total_quantity =
      (scSingleInvoice.products.map (fun p => p.quantity)).sum :=
  (C3_invoice_totals scHeaders scMapping [scRow] scSingleInvoice
    (by with_unfolding_all decide)).1

/-- C4 (corrected): a row the filter excludes — blank customer/date/total,
placeholder customer (case-insensitively), or total-amount string exactly
`"0.0"` — contributes nothing: the output equals the output without the row.
(The claim's "total amount is zero" clause only holds for the literal string
`"0.0"`; see the counterexample.) -/
theorem C4_amended (headers : List String) (m : ExcelHeaderMapping)
    (pre post : List Row) (r : Row) (h : excludedRow headers m r = true) :
    process_excel headers m (pre ++ r :: post) =
      process_excel headers m (pre ++ post) := by
  unfold process_excel
  rw [List.foldl_append, List.foldl_append, List.foldl_cons,
    processRow_excluded headers m _ r h]

/-- C4, witnessed: dropping a placeholder-customer row from the Widget
scenario leaves the output unchanged. -/
theorem C4_witness :
    process_excel scHeaders scMapping [scRow, scUnknownRow] =
      process_excel scHeaders scMapping [scRow] :=
  C4_amended scHeaders scMapping [scRow] [] scUnknownRow (by decide)

/-- C4, counterexample to the claim as stated: a row whose total amount is
zero but written `"0.00"` is not excluded — it produces an invoice, so the
output differs from the output without the row. -/
theorem C4_counterexample :
    parse_float "0.00" = 0 ∧
    process_excel scHeaders scMapping [scZeroTotalRow] ≠
      process_excel scHeaders scMapping [] ∧
    (process_excel scHeaders scMapping [scZeroTotalRow]).length = 1 := by
  refine ⟨?_, ?_, ?_⟩ <;> with_unfolding_all decide

/-- C5 (corrected): an error raised by the Azure text-extraction step is not
degraded to empty text — `_extract_text_with_Azure_Intelligence` has no
handler, so the exception reaches the per-file `except`, which records an
`{error, file}` stand-in for that file; the structured-generation call is
never reached and its outcome cannot affect the file's result. -/
theorem C5_amended (α : Type) (fileName : String) (e : PyError)
    (gen gen' : String → Except PyError (List α)) :
    processImageFile α fileName false (Except.error e) gen =
      [ResultEntry.errorEntry (rewriteError e) fileName] ∧
    processImageFile α fileName false (Except.error e) gen =
      processImageFile α fileName false (Except.error e) gen' :=
  ⟨rfl, rfl⟩

/-- C5, counterexample to the claim as stated: with a failing extraction and
a succeeding generator, the file's result is the error record — not the
generator's invoice, as "proceeds to the structured-generation call" would
require. -/
theorem C5_counterexample :
    processImageFile String "f.png" false (Except.error scTransportError)
        (fun _ => Except.ok ["INV"]) =
      [ResultEntry.errorEntry "connection refused" "f.png"] ∧
    processImageFile String "f.png" false (Except.error scTransportError)
        (fun _ => Except.ok ["INV"]) ≠
      [ResultEntry.invoice "INV"] := by
  constructor <;> decide

/-- C6 (corrected): only two of the nine canonical fields have a
deterministic fallback — phone_number (first header containing
phone/mobile/contact whose cell in the row is nonblank, also used when the
mapped column's value is blank) and tax (first header containing `tax` or a
`%` character). The other seven fields resolve to fixed defaults when their
mapping is null: blank customer/date/total, `"Unknown Serial"`,
`"Unknown Product"`, and quantity/unit-price 0 — no header is scanned for
them. -/
theorem C6_amended (headers : List String) (m : ExcelHeaderMapping) (row : Row) :
    (m.phone_number = none →
      (extractFields headers m row).r_phone = normalizePhone (phoneScan headers row)) ∧
    (m.tax = none →
      (extractFields headers m row).tax_str =
        (match headers.find? taxHeaderMatch with
         | some c => rowVal row c
         | none => "") ∧
      (extractFields headers m row).heading =
        (match headers.find? taxHeaderMatch with
         | some c => c
         | none => "None")) ∧
    (m.customer_name = none → (extractFields headers m row).r_cust = "") ∧
    (m.invoice_date = none → (extractFields headers m row).r_date = "") ∧
    (m.total_amount = none → (extractFields headers m row).r_total = "") ∧
    (m.serial_number = none →
      (extractFields headers m row).r_serial = "Unknown Serial") ∧
    (m.product_name = none →
      (extractFields headers m row).p_name = "Unknown Product") ∧
    (m.quantity = none → (extractFields headers m row).p_qty = 0) ∧
    (m.unit_price = none → (extractFields headers m row).p_unit = 0) := by
  refine ⟨fun h => ?_, fun h => ⟨?_, ?_⟩, fun h => ?_, fun h => ?_, fun h => ?_,
    fun h => ?_, fun h => ?_, fun h => ?_, fun h => ?_⟩
  · show resolvePhone headers row m.phone_number = _
    rw [h]
    rfl
  · show (resolveTax headers row m.tax).1 = _
    rw [h]
    unfold resolveTax resolveCol
    match headers.find? taxHeaderMatch with
    | some c => rfl
    | none => rfl
  · show (resolveTax headers row m.tax).2 = _
    rw [h]
    unfold resolveTax resolveCol
    match headers.find? taxHeaderMatch with
    | some c => rfl
    | none => rfl
  · show cellOf headers row m.customer_name = _
    rw [h]
    rfl
  · show cellOf headers row m.invoice_date = _
    rw [h]
    rfl
  · show cellOf headers row m.total_amount = _
    rw [h]
    rfl
  · show (match resolveCol headers m.serial_number with
          | some c => strTrim (rowVal row c)
          | none => "Unknown Serial") = _
    rw [h]
    rfl
  · show (match resolveCol headers m.product_name with
          | some c => strTrim (rowVal row c)
          | none => "Unknown Product") = _
    rw [h]
    rfl
  · show (match resolveCol headers m.quantity with
          | some c => parse_float (rowVal row c)
          | none => 0) = _
    rw [h]
    rfl
  · show (match resolveCol headers m.unit_price with
          | some c => parse_float (rowVal row c)
          | none => 0) = _
    rw [h]
    rfl

/-- C6, witnessed: with a null quantity mapping the quantity used for a row
is 0, whatever the headers say. -/
theorem C6_witness : (extractFields fbHeaders fbMapping fbRow).p_qty = 0 :=
  (C6_amended fbHeaders fbMapping fbRow).2.2.2.2.2.2.2.1 rfl

/-- C6, counterexample to the claim as stated: the mapping leaves `quantity`
null while a header literally named `Quantity` holds `5`; the claimed
fallback would resolve it and record quantity 5, but the aggregator records
quantity 0. -/
theorem C6_counterexample :
    ((process_excel fbHeaders fbMapping [fbRow]).map
        (fun i => i.products.map (fun p => p.quantity))) = [[0]] ∧
    parse_float "5" = 5 ∧ (0 : ℚ) ≠ 5 := by
  refine ⟨?_, ?_, ?_⟩ <;> with_unfolding_all decide

/-- C7 (confirmed): a file whose processing raises is recorded in place as
one `{error, file}` entry (quota errors rewritten to the user-facing
explanation first) while the files before and after it contribute their own
results unchanged; the endpoint envelope always carries status_code 200 with
that mixed result list as its data. -/
theorem C7_per_file_isolation (α : Type)
    (pre post files : List (String × Except PyError (List α)))
    (fname : String) (e : PyError) :
    processFiles α (pre ++ (fname, Except.error e) :: post) =
      processFiles α pre ++
        ResultEntry.errorEntry (rewriteError e) fname :: processFiles α post ∧
    ((strContains e.msg "429 RESOURCE_EXHAUSTED" || strContains e.msg "Quota exceeded" ||
        strContains e.code "429") = true → rewriteError e = quotaMessage) ∧
    (process_invoice α files).status_code = 200 ∧
    (process_invoice α files).data = processFiles α files := by
  refine ⟨?_, ?_, rfl, rfl⟩
  · unfold processFiles
    rw [List.foldl_append, List.foldl_cons, foldl_fileEntries,
      foldl_fileEntries α post]
    simp [fileEntries, List.append_assoc]
  · intro h
    unfold rewriteError
    rw [if_pos h]

/-- C7, witnessed: a quota error is rewritten, and an error file between two
good files leaves their results in place around the rewritten record. -/
theorem C7_witness :
    rewriteError scQuotaError = quotaMessage ∧
    processFiles ℕ [("a.png", Except.ok [1]), ("b.png", Except.error scQuotaError),
        ("c.png", Except.ok [2])] =
      [ResultEntry.invoice 1, ResultEntry.errorEntry quotaMessage "b.png",
        ResultEntry.invoice 2] :=
  ⟨(C7_per_file_isolation ℕ [] [] [] "b.png" scQuotaError).2.1 (by decide),
    by decide⟩

/-- C8 (confirmed): tax parsing is total and by policy never divides by a
zero subtotal: a blank tax value yields amount 0 and the string
`"0.00 (0%)"`, and in the absolute-amount branch a zero subtotal
(quantity × unit price = 0) back-computes percentage 0 rather than raising,
leaving the parsed amount intact. -/
theorem C8_tax_parse_safe (tax_val heading : String) (u q : ℚ) :
    parse_tax "" u q heading = (0, "0.00 (0%)") ∧
    (¬(heading ≠ "" ∧ heading.toList.contains '%' = true) → q * u = 0 →
      parse_tax tax_val u q heading =
        (parse_float tax_val,
          formatComma2 (parse_float tax_val) ++ (" (" ++ ("0" ++ "%)")))) := by
  constructor
  · rfl
  · intro hh h0
    by_cases hv : tax_val = ""
    · subst hv
      with_unfolding_all rfl
    · have hlt : ¬(q * u > 0) := by rw [h0]; exact lt_irrefl 0
      have hx : (if (0 : ℚ).den = 1 then intRepr 0 else reprFloat 0) = "0" := by
        with_unfolding_all rfl
      simp only [parse_tax, if_neg hv, if_neg hh, if_neg hlt, hx]

/-- C8, witnessed at a zero-subtotal row and a blank tax value. -/
theorem C8_witness :
    parse_tax "50" 0 3 "Tax Amount" =
      (parse_float "50",
        formatComma2 (parse_float "50") ++ (" (" ++ ("0" ++ "%)"))) ∧
    parse_tax "" 0 3 "Tax Amount" = (0, "0.00 (0%)") :=
  ⟨(C8_tax_parse_safe "50" "Tax Amount" 0 3).2 (by decide) (by norm_num),
    (C8_tax_parse_safe "50" "Tax Amount" 0 3).1⟩

/-- C9 (corrected): numeric parsing is total — every value is stripped to its
digit/dot residue (stripping is idempotent so parsing a value equals parsing
its residue), an empty or unparsable residue yields 0, `"$5,095.24"` parses
to 5095.24 and `""` to 0 — but the claimed formatting of the percentage
example is wrong: `"18%"` with quantity 2 and unit price 100 gives tax amount
36 formatted `"36.00 (18.0%)"`, not `"36.00 (18%)"` (the percentage branch
interpolates the float `18.0`). -/
theorem C9_amended (v : String) :
    parse_float v = parse_float (keepDigitsDot v) ∧
    (keepDigitsDot v = "" → parse_float v = 0) ∧
    parse_float "$5,095.24" = 5095.24 ∧
    parse_float "" = 0 ∧
    parse_float "1.2.3" = 0 ∧
    parse_tax "18%" 100 2 "Tax %" = (36, "36.00 (18.0%)") := by
  refine ⟨parse_float_strip v, fun h => ?_, ?_, ?_, ?_, ?_⟩
  · rw [parse_float_strip v, h]
    rfl
  · rw [parse_float_strip "$5,095.24", keepDigitsDot_example]
    with_unfolding_all rfl
  · rfl
  · with_unfolding_all decide
  · with_unfolding_all decide

/-- C9, witnessed: an all-letter value strips to the empty residue and
parses to 0. -/
theorem C9_witness : parse_float "abc" = 0 :=
  (C9_amended "abc").2.1 (by decide)

/-- C9, counterexample to the claim as stated: the formatted tax string of
the claimed example is `"36.00 (18.0%)"`, not `"36.00 (18%)"`. -/
theorem C9_counterexample :
    (parse_tax "18%" 100 2 "Tax %").2 ≠ "36.00 (18%)" ∧
    parse_tax "18%" 100 2 "Tax %" = (36, "36.00 (18.0%)") := by
  constructor <;> with_unfolding_all decide

/-- C10 (confirmed): merging a repeat occurrence leaves the state unchanged
when only the repeat row's unit-price or tax-cell values change (they are
never read: the merge re-extracts the percentage from the first occurrence's
formatted tax string and reuses its stored unit price), the merged product
keeps the first occurrence's name and unit price, and the freshly parsed
product handed to the merge is irrelevant whenever the name already exists. -/
theorem C10_merge_frame (st : AggState) (f : RowFields) (u' : ℚ) (t' : String)
    (inv : RawInvoice) (ep : Product)
    (hkey : st.find? (fun e => e.1 == keyOf f) = some (keyOf f, inv))
    (hp : (inv.products.find? (fun p => p.name == f.p_name)).isSome = true)
    (hexcl : excludedF f = false) :
    stepFields st f = stepFields st { f with p_unit := u', tax_str := t' } ∧
    (mergeProduct ep f.p_qty).name = ep.name ∧
    (mergeProduct ep f.p_qty).unit_price = ep.unit_price := by
  refine ⟨?_, rfl, rfl⟩
  have e1 : excludedF { f with p_unit := u', tax_str := t' } = excludedF f := rfl
  have e2 : keyOf { f with p_unit := u', tax_str := t' } = keyOf f := rfl
  have e3 : freshInvoice { f with p_unit := u', tax_str := t' } = freshInvoice f := rfl
  have e4 : ({ f with p_unit := u', tax_str := t' } : RowFields).p_qty = f.p_qty := rfl
  have e5 : ({ f with p_unit := u', tax_str := t' } : RowFields).p_name = f.p_name := rfl
  have h1 : (st.find? (fun e => e.1 == keyOf f)).isSome = true := by
    rw [hkey]; rfl
  simp only [stepFields, e1, e2, e3, e4, e5, hexcl, h1, Bool.false_eq_true,
    if_false, eq_self_iff_true, if_true]
  exact updateFirst_eq_of_agree st (keyOf f) inv _ _ hkey
    (by congr 1; exact stepProducts_congr _ _ _ _ _ hp)

/-- C10, witnessed: changing the repeat row's unit price and tax cell does
not change the merged state on the Widget scenario. -/
theorem C10_witness :
    stepFields frState frFields =
      stepFields frState { frFields with p_unit := 5, tax_str := "99" } :=
  (C10_merge_frame frState frFields 5 "99" frInvoice frProduct
    (by decide) (by decide) (by decide)).1

end Swipe
